import Mathlib

/- Shallow embedding of src/colormath/color_conversions.py (Python 2 source).
   Color objects become Lean structures carrying the illuminant/observer
   metadata (the effect of the source helper _transfer_common is inlined as
   the first two fields of every constructed output record).  Python floats
   are modelled as real numbers; math.pow with exponent 1/3 or 1/2.4 becomes
   Real rpow (the guarding branch always makes the base positive in the
   source); math.pow with exponent 2 or 3 becomes a natural power.  A Python
   statement that raises (ZeroDivisionError on a zero denominator, or the
   UnboundLocalError on the temp_X path of XYZ_to_RGB) is modelled by an
   Except error, checked in the evaluation order of the source.  Attributes
   set dynamically on an object that its constructor does not initialise are
   modelled as Option-valued fields, none meaning never assigned. -/

namespace Colormath

inductive PyErr where
  | zeroDivision
  | unboundLocal
  deriving DecidableEq

/-- Modelled from the spec: the illuminant reference-white table entry
consulted through get_illuminant_xyz (spec section 6), a record of the
reference tristimulus values X, Y, Z.  The table itself lives outside src,
so conversions receive the looked-up record as an explicit argument. -/
structure IllumWP where
  X : ℝ
  Y : ℝ
  Z : ℝ

structure XYZColor where
  illuminant : String
  observer : String
  xyz_x : ℝ
  xyz_y : ℝ
  xyz_z : ℝ

/-- LabColor: lab_l, lab_a, lab_b are the value fields.  The xyz_x, xyz_y,
xyz_z fields model attributes that Lab_to_XYZ sets dynamically on the input
object (source lines 118-120); a fresh Lab object has them unset (none). -/
structure LabColor where
  illuminant : String
  observer : String
  lab_l : ℝ
  lab_a : ℝ
  lab_b : ℝ
  xyz_x : Option ℝ
  xyz_y : Option ℝ
  xyz_z : Option ℝ

structure LCHColor where
  illuminant : String
  observer : String
  lch_l : ℝ
  lch_c : ℝ
  lch_h : ℝ

structure LuvColor where
  illuminant : String
  observer : String
  luv_l : ℝ
  luv_u : ℝ
  luv_v : ℝ

structure xyYColor where
  illuminant : String
  observer : String
  xyy_x : ℝ
  xyy_y : ℝ
  xyy_Y : ℝ

/-- RGB channels are integers in the output of XYZ_to_RGB (source line 336
applies int(math.floor(...))), so the record stores them as integers. -/
structure RGBColor where
  illuminant : String
  observer : String
  rgb_r : ℤ
  rgb_g : ℤ
  rgb_b : ℤ

structure CMYColor where
  illuminant : String
  observer : String
  cmy_c : ℝ
  cmy_m : ℝ
  cmy_y : ℝ

/-- Modelled from the spec for the constructor only: a fresh CMYK record has
its four value fields unset until a conversion assigns them (spec section 3
lists fields c, m, y, k; the record is freshly allocated per conversion).
none models a field the conversion never assigned. -/
structure CMYKColor where
  illuminant : String
  observer : String
  cmyk_c : Option ℝ
  cmyk_m : Option ℝ
  cmyk_y : Option ℝ
  cmyk_k : Option ℝ

/-- Modelled from the spec: the D65 reference white (95.047, 100, 108.883),
spec section 8. -/
noncomputable def d65 : IllumWP := ⟨95.047, 100, 108.883⟩

/-- Python math.atan2 on real arguments: the angle of (x, y) in (-pi, pi],
with atan2 0 0 = 0. -/
noncomputable def atan2 (y x : ℝ) : ℝ :=
  if 0 < x then Real.arctan (y / x)
  else if x < 0 then
    if 0 ≤ y then Real.arctan (y / x) + Real.pi
    else Real.arctan (y / x) - Real.pi
  else
    if 0 < y then Real.pi / 2
    else if y < 0 then -(Real.pi / 2)
    else 0

/-- Source Lab_to_LCH, lines 72-88. -/
noncomputable def Lab_to_LCH (cobj : LabColor) : LCHColor :=
  let h0 := atan2 cobj.lab_b cobj.lab_a
  let h1 := if h0 > 0 then h0 / Real.pi * 180 else 360 - |h0| / Real.pi * 180
  ⟨cobj.illuminant, cobj.observer, cobj.lab_l,
    Real.sqrt (cobj.lab_a ^ 2 + cobj.lab_b ^ 2), h1⟩

/-- Source XYZ_to_Lab, lines 233-263.  The three divisions by the reference
white components raise ZeroDivisionError when the component is zero. -/
noncomputable def XYZ_to_Lab (cobj : XYZColor) (illum : IllumWP) :
    Except PyErr LabColor :=
  if illum.X = 0 then .error .zeroDivision
  else if illum.Y = 0 then .error .zeroDivision
  else if illum.Z = 0 then .error .zeroDivision
  else
    let tx := cobj.xyz_x * 100 / illum.X
    let ty := cobj.xyz_y * 100 / illum.Y
    let tz := cobj.xyz_z * 100 / illum.Z
    let fx := if tx > 0.008856 then tx ^ ((1 : ℝ) / 3) else 7.787 * tx + 16 / 116
    let fy := if ty > 0.008856 then ty ^ ((1 : ℝ) / 3) else 7.787 * ty + 16 / 116
    let fz := if tz > 0.008856 then tz ^ ((1 : ℝ) / 3) else 7.787 * tz + 16 / 116
    .ok ⟨cobj.illuminant, cobj.observer,
      116 * fy - 16, 500 * (fx - fy), 200 * (fy - fz), none, none, none⟩

/-- Source Lab_to_XYZ, lines 90-121.  Returns the pair of the returned
xyzcolor and the state of the input object after the call: lines 118-120
assign the illuminant-scaled values to cobj, not to xyzcolor. -/
noncomputable def Lab_to_XYZ (cobj : LabColor) (illum : IllumWP) :
    XYZColor × LabColor :=
  let y0 := (cobj.lab_l + 16) / 116
  let x0 := cobj.lab_a / 500 + y0
  let z0 := y0 - cobj.lab_b / 200
  let y1 := if y0 ^ 3 > 0.008856 then y0 ^ 3 else (y0 - 16 / 116) / 7.787
  let x1 := if x0 ^ 3 > 0.008856 then x0 ^ 3 else (x0 - 16 / 116) / 7.787
  let z1 := if z0 ^ 3 > 0.008856 then z0 ^ 3 else (z0 - 16 / 116) / 7.787
  (⟨cobj.illuminant, cobj.observer, x1, y1, z1⟩,
   { cobj with
      xyz_x := some (illum.X * x1 / 100)
      xyz_y := some (illum.Y * y1 / 100)
      xyz_z := some (illum.Z * z1 / 100) })

/-- Source XYZ_to_Luv, lines 204-231. -/
noncomputable def XYZ_to_Luv (cobj : XYZColor) (illum : IllumWP) :
    Except PyErr LuvColor :=
  let temp_x := cobj.xyz_x * 100
  let temp_y := cobj.xyz_y * 100
  let temp_z := cobj.xyz_z * 100
  if temp_x + 15 * temp_y + 3 * temp_z = 0 then .error .zeroDivision
  else
    let u0 := 4 * temp_x / (temp_x + 15 * temp_y + 3 * temp_z)
    let v0 := 9 * temp_y / (temp_x + 15 * temp_y + 3 * temp_z)
    if illum.Y = 0 then .error .zeroDivision
    else
      let ty := temp_y / illum.Y
      let fy := if ty > 0.008856 then ty ^ ((1 : ℝ) / 3) else 7.787 * ty + 16 / 116
      if illum.X + 15 * illum.Y + 3 * illum.Z = 0 then .error .zeroDivision
      else
        let ref_U := 4 * illum.X / (illum.X + 15 * illum.Y + 3 * illum.Z)
        let ref_V := 9 * illum.Y / (illum.X + 15 * illum.Y + 3 * illum.Z)
        let L := 116 * fy - 16
        .ok ⟨cobj.illuminant, cobj.observer, L,
          13 * L * (u0 - ref_U), 13 * L * (v0 - ref_V)⟩

/-- Source Luv_to_XYZ, lines 139-165.  Note line 152 of the source computes
var_V from cobj.luv_u, the same numerator as var_U. -/
noncomputable def Luv_to_XYZ (cobj : LuvColor) (illum : IllumWP) :
    Except PyErr XYZColor :=
  if illum.X + 15 * illum.Y + 3 * illum.Z = 0 then .error .zeroDivision
  else
    let ref_U := 4 * illum.X / (illum.X + 15 * illum.Y + 3 * illum.Z)
    let ref_V := 9 * illum.Y / (illum.X + 15 * illum.Y + 3 * illum.Z)
    if 13 * cobj.luv_l = 0 then .error .zeroDivision
    else
      let var_U := cobj.luv_u / (13 * cobj.luv_l) + ref_U
      let var_V := cobj.luv_u / (13 * cobj.luv_l) + ref_V
      let vy0 := (cobj.luv_l + 16) / 116
      let var_Y := if vy0 ^ 3 > 0.008856 then vy0 ^ 3 else (vy0 - 16 / 116) / 7.787
      let xyz_y := var_Y * 100
      if (var_U - 4) * var_V - var_U * var_V = 0 then .error .zeroDivision
      else
        let xyz_x := -(9 * xyz_y * var_U) / ((var_U - 4) * var_V - var_U * var_V)
        if 3 * var_V = 0 then .error .zeroDivision
        else
          .ok ⟨cobj.illuminant, cobj.observer, xyz_x, xyz_y,
            (9 * xyz_y - 15 * var_V * xyz_y - var_V * xyz_x) / (3 * var_V)⟩

/-- Source XYZ_to_xyY, lines 191-202: both chromaticity coordinates divide
by the unguarded sum of the tristimulus values. -/
noncomputable def XYZ_to_xyY (cobj : XYZColor) : Except PyErr xyYColor :=
  if cobj.xyz_x + cobj.xyz_y + cobj.xyz_z = 0 then .error .zeroDivision
  else
    .ok ⟨cobj.illuminant, cobj.observer,
      cobj.xyz_x / (cobj.xyz_x + cobj.xyz_y + cobj.xyz_z),
      cobj.xyz_y / (cobj.xyz_x + cobj.xyz_y + cobj.xyz_z),
      cobj.xyz_y⟩

/-- Source xyY_to_XYZ, lines 350-360: both divisions are by the unguarded
chromaticity y. -/
noncomputable def xyY_to_XYZ (cobj : xyYColor) : Except PyErr XYZColor :=
  if cobj.xyy_y = 0 then .error .zeroDivision
  else
    .ok ⟨cobj.illuminant, cobj.observer,
      cobj.xyy_x * cobj.xyy_Y / cobj.xyy_y,
      cobj.xyy_Y,
      (1 - cobj.xyy_x - cobj.xyy_y) * cobj.xyy_Y / cobj.xyy_y⟩

/-- Source RGB_to_CMY, lines 362-372.  The source is Python 2 and the RGB
channels the library produces are integers, so the division by 255 is
integer floor division. -/
noncomputable def RGB_to_CMY (cobj : RGBColor) : CMYColor :=
  ⟨cobj.illuminant, cobj.observer,
    ((1 - cobj.rgb_r.fdiv 255 : ℤ) : ℝ),
    ((1 - cobj.rgb_g.fdiv 255 : ℤ) : ℝ),
    ((1 - cobj.rgb_b.fdiv 255 : ℤ) : ℝ)⟩

/-- Source CMY_to_CMYK, lines 386-411.  var_k starts at 1 and is lowered by
the three comparisons; the output fields cmyk_c, cmyk_m, cmyk_y are
assigned in both branches, and cmyk_k is never assigned. -/
noncomputable def CMY_to_CMYK (cobj : CMYColor) : CMYKColor :=
  let k0 : ℝ := 1
  let k1 := if cobj.cmy_c < k0 then cobj.cmy_c else k0
  let k2 := if cobj.cmy_m < k1 then cobj.cmy_m else k1
  let k3 := if cobj.cmy_y < k2 then cobj.cmy_y else k2
  if k3 = 1 then
    ⟨cobj.illuminant, cobj.observer, some 0, some 0, some 0, none⟩
  else
    ⟨cobj.illuminant, cobj.observer,
      some ((cobj.cmy_c - k3) / (1 - k3)),
      some ((cobj.cmy_m - k3) / (1 - k3)),
      some ((cobj.cmy_y - k3) / (1 - k3)), none⟩

structure Mat3 where
  a11 : ℝ
  a12 : ℝ
  a13 : ℝ
  a21 : ℝ
  a22 : ℝ
  a23 : ℝ
  a31 : ℝ
  a32 : ℝ
  a33 : ℝ

/-- Modelled from the spec: one entry of the external RGB_SPECS table
(spec section 6): native illuminant identifier, gamma, and the XYZ to RGB
conversion matrix.  Conversions receive the looked-up entry as an
argument. -/
structure RGBSpec where
  native_illum : String
  gamma : ℝ
  matrix : Mat3

/-- Source apply_RGB_matrix, lines 38-56: numpy.dot of the row vector
(var1, var2, var3) with the 3 by 3 matrix. -/
noncomputable def apply_RGB_matrix (var1 var2 var3 : ℝ) (m : Mat3) :
    ℝ × ℝ × ℝ :=
  (var1 * m.a11 + var2 * m.a21 + var3 * m.a31,
   var1 * m.a12 + var2 * m.a22 + var3 * m.a32,
   var1 * m.a13 + var2 * m.a23 + var3 * m.a33)

/-- Source apply_XYZ_transformation, lines 15-36, with the adaptation
matrix looked up from the external table passed as an argument. -/
noncomputable def apply_XYZ_transformation (cobj : XYZColor) (m : Mat3) :
    ℝ × ℝ × ℝ :=
  (cobj.xyz_x * m.a11 + cobj.xyz_y * m.a21 + cobj.xyz_z * m.a31,
   cobj.xyz_x * m.a12 + cobj.xyz_y * m.a22 + cobj.xyz_z * m.a32,
   cobj.xyz_x * m.a13 + cobj.xyz_y * m.a23 + cobj.xyz_z * m.a33)

/-- The per-channel sRGB companding step of XYZ_to_RGB, source lines
295-310: strict greater-than against the linear threshold. -/
noncomputable def sRGB_compand (v : ℝ) : ℝ :=
  if v > 0.0031308 then 1.055 * v ^ ((1 : ℝ) / 2.4) - 0.055 else v * 12.92

/-- Source XYZ_to_RGB, lines 265-348.  The temp values are assigned only
inside the branch taken when the input illuminant differs from the target
native illuminant; when they are equal, line 289 reads the unassigned
locals and the call raises UnboundLocalError, modelled as the unboundLocal
error. -/
noncomputable def XYZ_to_RGB (cobj : XYZColor) (target_rgb : String)
    (sp : RGBSpec) (adaptM : Mat3) : Except PyErr RGBColor :=
  let target := target_rgb.toLower
  if cobj.illuminant ≠ sp.native_illum then
    let t := apply_XYZ_transformation cobj adaptM
    let rgb0 := apply_RGB_matrix t.1 t.2.1 t.2.2 sp.matrix
    let r1 :=
      if target = "srgb" then sRGB_compand rgb0.1
      else (if rgb0.1 < 0 then 0 else rgb0.1) ^ ((1 : ℝ) / sp.gamma)
    let g1 :=
      if target = "srgb" then sRGB_compand rgb0.2.1
      else (if rgb0.2.1 < 0 then 0 else rgb0.2.1) ^ ((1 : ℝ) / sp.gamma)
    let b1 :=
      if target = "srgb" then sRGB_compand rgb0.2.2
      else (if rgb0.2.2 < 0 then 0 else rgb0.2.2) ^ ((1 : ℝ) / sp.gamma)
    let r2 := if r1 < 0 then 0 else r1
    let g2 := if g1 < 0 then 0 else g1
    let b2 := if b1 < 0 then 0 else b1
    let ri := ⌊(0.5 : ℝ) + r2 * 255⌋
    let gi := ⌊(0.5 : ℝ) + g2 * 255⌋
    let bi := ⌊(0.5 : ℝ) + b2 * 255⌋
    .ok ⟨cobj.illuminant, cobj.observer,
      if ri > 255 then 255 else ri,
      if gi > 255 then 255 else gi,
      if bi > 255 then 255 else bi⟩
  else .error .unboundLocal

/-- C1: the Lab round trip under D65 does not reproduce the original XYZ:
Lab_to_XYZ computes the illuminant scaling into the input object (source
lines 118-120) instead of the returned record, so the returned X at
(0.0008, 0.0008, 0.0008) is the white-relative value 80/95047, about 5.2
percent away from 0.0008, far outside 1e-6 relative error. -/
theorem Lab_roundtrip_returns_unscaled_xyz :
    ((XYZ_to_Lab ⟨"d65", "2", 0.0008, 0.0008, 0.0008⟩ d65).map
      (fun lab => (Lab_to_XYZ lab d65).1.xyz_x)) = Except.ok (80 / 95047) ∧
    ¬ (|(80 / 95047 : ℝ) - 0.0008| ≤ 1 / 1000000 * |(0.0008 : ℝ)|) := by
  constructor
  · norm_num [XYZ_to_Lab, Lab_to_XYZ, d65, Except.map]
  · rw [abs_of_pos (by norm_num), abs_of_pos (by norm_num)]
    norm_num

/-- C5: the Luv round trip under D65 does not reproduce the original XYZ:
Luv_to_XYZ returns Y on the 0-100 scale while XYZ_to_Luv consumes the 0-1
scale, so input Y = 0.001 comes back as 0.1, one hundred times the
original and far outside 1e-6 relative error.  The inverse also computes
var_V from luv_u (source line 152) rather than from luv_v. -/
theorem Luv_roundtrip_returns_scaled_y :
    (((XYZ_to_Luv ⟨"d65", "2", 0.001, 0.001, 0.001⟩ d65).bind
      (fun luv => Luv_to_XYZ luv d65)).map (fun c => c.xyz_y)) =
      Except.ok 0.1 ∧
    ¬ (|(0.1 : ℝ) - 0.001| ≤ 1 / 1000000 * |(0.001 : ℝ)|) := by
  constructor
  · norm_num [XYZ_to_Luv, Luv_to_XYZ, d65, Except.bind, Except.map]
  · rw [abs_of_pos (by norm_num), abs_of_pos (by norm_num)]
    norm_num

/-- C2: the claim says every conversion leaves its input unchanged, but
Lab_to_XYZ (source lines 118-120) assigns the illuminant-scaled XYZ values
to the input object, so after the call the input has an xyz_x attribute it
did not have before. -/
theorem Lab_to_XYZ_mutates_input :
    ((Lab_to_XYZ ⟨"d65", "2", 50, 10, 10, none, none, none⟩ d65).2).xyz_x ≠
      (⟨"d65", "2", 50, 10, 10, none, none, none⟩ : LabColor).xyz_x := by
  simp [Lab_to_XYZ]

/-- C3: CMY_to_CMYK maps both (1,1,1) and (0,0,0) to records whose c, m, y
components are 0, but the k component is never assigned by the source, so
it stays unset for both inputs and in particular is not 1 for (1,1,1) and
not min(C,M,Y) in general. -/
theorem CMY_to_CMYK_never_sets_k :
    CMY_to_CMYK ⟨"d65", "2", 1, 1, 1⟩ =
      (⟨"d65", "2", some 0, some 0, some 0, none⟩ : CMYKColor) ∧
    CMY_to_CMYK ⟨"d65", "2", 0, 0, 0⟩ =
      (⟨"d65", "2", some 0, some 0, some 0, none⟩ : CMYKColor) := by
  constructor <;> norm_num [CMY_to_CMYK]

/-- C4: XYZ_to_RGB with target sRGB raises UnboundLocalError, for any
matrix table contents, whenever the input illuminant equals the native
illuminant of the target space, because the temp locals are assigned only
on the adaptation branch; so neither the white nor the black call returns
a value. -/
theorem XYZ_to_RGB_matching_illuminant_unbound :
    ∀ (g : ℝ) (m adaptM : Mat3),
      XYZ_to_RGB ⟨"d65", "2", 0.95047, 1.0, 1.08883⟩ "sRGB" ⟨"d65", g, m⟩
          adaptM = .error .unboundLocal ∧
      XYZ_to_RGB ⟨"d65", "2", 0, 0, 0⟩ "sRGB" ⟨"d65", g, m⟩ adaptM =
        .error .unboundLocal := by
  intro g m adaptM
  constructor <;> simp [XYZ_to_RGB]

/-- Range of the atan2 model: the angle lies in (-pi, pi]. -/
theorem atan2_bounds (y x : ℝ) : -Real.pi < atan2 y x ∧ atan2 y x ≤ Real.pi := by
  have hpi : (0 : ℝ) < Real.pi := Real.pi_pos
  unfold atan2
  split_ifs with h1 h2 h3 h4 h5
  · have ha := Real.arctan_lt_pi_div_two (y / x)
    have hb := Real.neg_pi_div_two_lt_arctan (y / x)
    constructor <;> linarith
  · have hyx : y / x ≤ 0 := div_nonpos_iff.mpr (Or.inl ⟨h3, h2.le⟩)
    have harc : Real.arctan (y / x) ≤ 0 := by
      have hm := Real.arctan_strictMono.monotone hyx
      rwa [Real.arctan_zero] at hm
    have hb := Real.neg_pi_div_two_lt_arctan (y / x)
    constructor <;> linarith
  · have hyx : 0 < y / x := div_pos_iff.mpr (Or.inr ⟨not_le.mp h3, h2⟩)
    have harc : 0 < Real.arctan (y / x) := by
      have hm := Real.arctan_strictMono hyx
      rwa [Real.arctan_zero] at hm
    have ha := Real.arctan_lt_pi_div_two (y / x)
    constructor <;> linarith
  · constructor <;> linarith
  · constructor <;> linarith
  · constructor <;> linarith

/-- C6 counterexample: at a = 0, b = 0 the hue produced by Lab_to_LCH is
360, which is not in the half-open interval and is not the claimed 0. -/
theorem Lab_to_LCH_hue_360_at_origin :
    (Lab_to_LCH ⟨"d65", "2", 50, 0, 0, none, none, none⟩).lch_h = 360 ∧
    ¬ ((Lab_to_LCH ⟨"d65", "2", 50, 0, 0, none, none, none⟩).lch_h < 360) := by
  have h : (Lab_to_LCH ⟨"d65", "2", 50, 0, 0, none, none, none⟩).lch_h = 360 := by
    norm_num [Lab_to_LCH, atan2]
  exact ⟨h, by rw [h]; norm_num⟩

/-- C6 amended: for all a and b the hue produced by Lab_to_LCH lies in the
half-open interval (0, 360]; the boundary case a = 0, b = 0 yields C = 0
and H = 360; and the case a < 0, b = 0 yields H = 180. -/
theorem Lab_to_LCH_hue_in_Ioc :
    ∀ c : LabColor,
      (0 < (Lab_to_LCH c).lch_h ∧ (Lab_to_LCH c).lch_h ≤ 360) ∧
      (c.lab_a = 0 → c.lab_b = 0 →
        (Lab_to_LCH c).lch_h = 360 ∧ (Lab_to_LCH c).lch_c = 0) ∧
      (c.lab_a < 0 → c.lab_b = 0 → (Lab_to_LCH c).lch_h = 180) := by
  intro c
  obtain ⟨hl, hu⟩ := atan2_bounds c.lab_b c.lab_a
  have hpi : (0 : ℝ) < Real.pi := Real.pi_pos
  refine ⟨?_, ?_, ?_⟩
  · simp only [Lab_to_LCH]
    split_ifs with hp
    · have h1 : atan2 c.lab_b c.lab_a / Real.pi ≤ 1 := (div_le_one hpi).mpr hu
      have h2 : 0 < atan2 c.lab_b c.lab_a / Real.pi := div_pos hp hpi
      constructor <;> nlinarith
    · have hp0 : atan2 c.lab_b c.lab_a ≤ 0 := not_lt.mp hp
      rw [abs_of_nonpos hp0]
      have h1 : -atan2 c.lab_b c.lab_a / Real.pi < 1 :=
        (div_lt_one hpi).mpr (by linarith)
      have h2 : 0 ≤ -atan2 c.lab_b c.lab_a / Real.pi :=
        div_nonneg (by linarith) hpi.le
      constructor <;> nlinarith
  · intro ha hb
    constructor
    · norm_num [Lab_to_LCH, atan2, ha, hb]
    · norm_num [Lab_to_LCH, ha, hb]
  · intro ha hb
    have h0 : atan2 c.lab_b c.lab_a = Real.pi := by
      simp only [atan2, hb]
      rw [if_neg (by linarith), if_pos ha, if_pos le_rfl]
      simp [Real.arctan_zero]
    simp only [Lab_to_LCH, h0]
    rw [if_pos hpi, div_self (ne_of_gt hpi)]
    norm_num

/-- C6 witness: the range bound at a concrete point, and the H = 180 case
at the concrete point a = -1, b = 0. -/
theorem Lab_to_LCH_hue_in_Ioc_witness :
    0 < (Lab_to_LCH ⟨"d65", "2", 50, 3, 4, none, none, none⟩).lch_h ∧
    (Lab_to_LCH ⟨"d65", "2", 50, -1, 0, none, none, none⟩).lch_h = 180 :=
  ⟨(Lab_to_LCH_hue_in_Ioc ⟨"d65", "2", 50, 3, 4, none, none, none⟩).1.1,
   (Lab_to_LCH_hue_in_Ioc ⟨"d65", "2", 50, -1, 0, none, none, none⟩).2.2
     (by norm_num) rfl⟩

/-- C7: with the integer channel values the library produces, the Python 2
division in RGB_to_CMY is integer floor division, so R = 128 yields
C = 1 - (128 fdiv 255) = 1, not 127/255. -/
theorem RGB_to_CMY_integer_division :
    RGB_to_CMY ⟨"d65", "2", 128, 128, 128⟩ =
      (⟨"d65", "2", 1, 1, 1⟩ : CMYColor) ∧ (127 / 255 : ℝ) ≠ 1 := by
  have h : (128 : ℤ).fdiv 255 = 0 := by decide
  constructor
  · simp [RGB_to_CMY, h]
  · norm_num

/-- C8: xyY_to_XYZ fails with the zero-division (DomainError-class) error
exactly when the chromaticity y is 0, and otherwise returns
X = x*Y/y, Y, Z = (1-x-y)*Y/y. -/
theorem xyY_to_XYZ_zero_y_fails :
    (∀ c : xyYColor, c.xyy_y = 0 → xyY_to_XYZ c = .error .zeroDivision) ∧
    (∀ c : xyYColor, c.xyy_y ≠ 0 → xyY_to_XYZ c =
      .ok ⟨c.illuminant, c.observer, c.xyy_x * c.xyy_Y / c.xyy_y, c.xyy_Y,
        (1 - c.xyy_x - c.xyy_y) * c.xyy_Y / c.xyy_y⟩) := by
  constructor
  · intro c h
    simp [xyY_to_XYZ, h]
  · intro c h
    simp [xyY_to_XYZ, h]

/-- C8 witness: the zero case at y = 0 and the formula case at a concrete
nonzero y. -/
theorem xyY_to_XYZ_zero_y_fails_witness :
    xyY_to_XYZ ⟨"d65", "2", 0.3, 0, 1⟩ = .error .zeroDivision ∧
    xyY_to_XYZ ⟨"d65", "2", 0.25, 0.5, 2⟩ =
      .ok ⟨"d65", "2", 0.25 * 2 / 0.5, 2, (1 - 0.25 - 0.5) * 2 / 0.5⟩ :=
  ⟨xyY_to_XYZ_zero_y_fails.1 ⟨"d65", "2", 0.3, 0, 1⟩ rfl,
   xyY_to_XYZ_zero_y_fails.2 ⟨"d65", "2", 0.25, 0.5, 2⟩ (by norm_num)⟩

/-- C9: the sRGB companding step of XYZ_to_RGB takes the linear branch
v * 12.92 at a channel value exactly equal to 0.0031308, because the
comparison against the threshold is strict, and takes the power branch
1.055 * v ^ (1/2.4) - 0.055 at every value strictly above it. -/
theorem sRGB_compand_branch_boundary :
    sRGB_compand 0.0031308 = 0.0031308 * 12.92 ∧
    ∀ v : ℝ, 0.0031308 < v →
      sRGB_compand v = 1.055 * v ^ ((1 : ℝ) / 2.4) - 0.055 := by
  constructor
  · simp only [sRGB_compand]
    rw [if_neg (by norm_num)]
  · intro v hv
    simp only [sRGB_compand]
    rw [if_pos hv]

/-- C9 witness: the power branch at the concrete value 1. -/
theorem sRGB_compand_branch_boundary_witness :
    (0.0031308 : ℝ) < 1 ∧
    sRGB_compand 1 = 1.055 * (1 : ℝ) ^ ((1 : ℝ) / 2.4) - 0.055 :=
  ⟨by norm_num, sRGB_compand_branch_boundary.2 1 (by norm_num)⟩

/-- C10: XYZ_to_xyY divides by the unguarded sum of the tristimulus values,
so at black (0,0,0) it raises the zero-division error and returns no
chromaticity, while on every input with nonzero sum it returns the
chromaticity record. -/
theorem XYZ_to_xyY_black_division_by_zero :
    XYZ_to_xyY ⟨"d65", "2", 0, 0, 0⟩ = .error .zeroDivision ∧
    ∀ c : XYZColor, c.xyz_x + c.xyz_y + c.xyz_z ≠ 0 →
      XYZ_to_xyY c = .ok ⟨c.illuminant, c.observer,
        c.xyz_x / (c.xyz_x + c.xyz_y + c.xyz_z),
        c.xyz_y / (c.xyz_x + c.xyz_y + c.xyz_z), c.xyz_y⟩ := by
  constructor
  · simp [XYZ_to_xyY]
  · intro c h
    simp [XYZ_to_xyY, h]

/-- C10 witness: the total case at a concrete nonzero-sum input. -/
theorem XYZ_to_xyY_black_division_by_zero_witness :
    (1 : ℝ) + 2 + 1 ≠ 0 ∧
    XYZ_to_xyY ⟨"d65", "2", 1, 2, 1⟩ =
      .ok ⟨"d65", "2", 1 / (1 + 2 + 1), 2 / (1 + 2 + 1), 2⟩ :=
  ⟨by norm_num,
   XYZ_to_xyY_black_division_by_zero.2 ⟨"d65", "2", 1, 2, 1⟩ (by norm_num)⟩

end Colormath
